import Mathlib

/-!
Verification of the cross-entity filtering and derived-attribute engine of the
Local Food Wastage Management System (`src/app.py`).

The Python source operates on pandas DataFrames loaded from a SQLite store.
We shallowly embed the rows as Lean structures and the frame-level operations
as pure functions over lists:

* Calendar dates are modelled as whole-day numbers (`Int`).  `pd.to_datetime`
  with `errors="coerce"` yields `NaT` on failure, modelled as `none` of
  `Option Int`; `.dt.normalize()` (floor to midnight) is the identity on
  whole-day numbers.
* A raw `Quantity` cell is a string that `pd.to_numeric(..., errors="coerce")`
  either parses (`some n`) or turns into `NaN` (`none`).
* `date.today()` is read inside `compute_days_to_expiry` in the source; per the
  specification's design note it is modelled as an explicit `today : Int`
  parameter.
* Column presence matters to the source (`"Expiry_Date" not in df.columns`,
  `"Days_To_Expiry" in wf.columns`), so a food frame carries two Booleans
  recording whether those columns exist alongside the row list.
-/

namespace FoodWastage

/-- A row of the `Providers` table (`Provider_ID` is unique per the data
model). -/
structure Provider where
  provider_ID : Nat
  name : String
  provider_Type : String
  city : String
  contact : String
deriving DecidableEq

/-- A row of the `Food_Listings` table, together with the derived
`Days_To_Expiry` column (meaningful only when the enclosing frame's
`hasDaysCol` flag is set).  `expiry_Date = none` models an absent or
unparseable date (`NaT`); `quantity = none` models an unparseable quantity
(`NaN`). -/
structure Listing where
  food_ID : Nat
  food_Name : String
  quantity : Option Int
  expiry_Date : Option Int
  provider_ID : Nat
  location : String
  food_Type : String
  meal_Type : String
  days_To_Expiry : Option Int
deriving DecidableEq

/-- A row of the `Claims` table. -/
structure Claim where
  claim_ID : Nat
  food_ID : Nat
  receiver_ID : Nat
  status : String
  timestamp : String
deriving DecidableEq

/-- The `Food_Listings` DataFrame: its rows plus the presence flags of the
`Expiry_Date` and `Days_To_Expiry` columns (the source tests both:
`app.py:180` and `app.py:251`). -/
structure FoodFrame where
  hasExpiryCol : Bool
  hasDaysCol : Bool
  rows : List Listing
deriving DecidableEq

/-- Per-row effect of `compute_days_to_expiry` (`app.py:185`):
`Days_To_Expiry = (Expiry_Date.normalize() - today).days.abs()`, `NaT`
propagating to `<NA>`. -/
def deriveDays (today : Int) (l : Listing) : Listing :=
  { l with days_To_Expiry := l.expiry_Date.map (fun e => ((e - today).natAbs : Int)) }

/-- `compute_days_to_expiry` (`app.py:179-188`): returns the frame unchanged
when it is empty or lacks an `Expiry_Date` column, otherwise copies it and
adds the absolute `Days_To_Expiry` column. -/
def compute_days_to_expiry (today : Int) (f : FoodFrame) : FoodFrame :=
  if f.rows.isEmpty || !f.hasExpiryCol then f
  else { f with hasDaysCol := true, rows := f.rows.map (deriveDays today) }

/-- The Wastage & Expiry page's expired selection (`app.py:520`):
`f[pd.to_datetime(f["Expiry_Date"], errors="coerce") < today]`.  `NaT < today`
is false in pandas, so unparseable dates are excluded. -/
def expiredSelection (today : Int) (f : FoodFrame) : List Listing :=
  f.rows.filter (fun l =>
    match l.expiry_Date with
    | some e => decide (e < today)
    | none => false)

/-- Quantity coercion used by the aggregation joins
(`pd.to_numeric(..., errors="coerce").fillna(0)`, `app.py:290` and
`app.py:446`): unparseable cells become `0`, parsed values pass through
unchanged. -/
def coerceQuantity (q : Option Int) : Int := q.getD 0

/-! ### Dashboard global filters (`app.py:241-252`) -/

/-- The Dashboard's global predicate set: `sel_city = none` models the "All"
choice, the two lists model the multiselect widgets (an empty list is falsy in
Python, skipping the filter), and `sel_days` is the always-present slider
value. -/
structure DashPred where
  sel_city : Option String
  sel_food_types : List String
  sel_meals : List String
  sel_days : Int × Int
deriving DecidableEq

/-- Lower-casing as performed by pandas `.str.lower()` and Python
`str.lower()`, modelled character-wise. -/
def lowerStr (s : String) : String := ⟨s.data.map Char.toLower⟩

/-- The Dashboard city test (`app.py:243-246`).  The working frame `wf` is a
copy of the food table and has no `Provider_City` column, so
`wf.get("Provider_City", pd.Series([""]*len(wf)))` falls back to an all-empty
string series; the second disjunct therefore compares `""` with the lowered
city. -/
def dashCityB (c : String) (l : Listing) : Bool :=
  (lowerStr l.location == lowerStr c) || (lowerStr "" == lowerStr c)

/-- The Dashboard days-to-expiry test (`app.py:252`): non-null and inside the
closed slider interval. -/
def daysInRangeB (lo hi : Int) (l : Listing) : Bool :=
  match l.days_To_Expiry with
  | some d => decide (lo ≤ d) && decide (d ≤ hi)
  | none => false

/-- City stage of the Dashboard filter block (`if sel_city and sel_city !=
"All"`). -/
def stageCity (o : Option String) (rows : List Listing) : List Listing :=
  match o with
  | none => rows
  | some c => rows.filter (dashCityB c)

/-- Multiselect stage of the Dashboard filter block (`if sel_food_types:` /
`if sel_meals:` followed by `.isin(...)`). -/
def stageIsin (sel : List String) (proj : Listing → String) (rows : List Listing) :
    List Listing :=
  if sel.isEmpty then rows else rows.filter (fun l => sel.contains (proj l))

/-- Days stage of the Dashboard filter block (`if "Days_To_Expiry" in
wf.columns:`). -/
def stageDays (hasDays : Bool) (lohi : Int × Int) (rows : List Listing) : List Listing :=
  if hasDays then rows.filter (daysInRangeB lohi.1 lohi.2) else rows

/-- The Dashboard global filter block (`app.py:241-252`): city, then food
types, then meal types, then the days-to-expiry slider. -/
def dashboardFilter (p : DashPred) (f : FoodFrame) : FoodFrame :=
  let rows1 := stageCity p.sel_city f.rows
  let rows2 := stageIsin p.sel_food_types Listing.food_Type rows1
  let rows3 := stageIsin p.sel_meals Listing.meal_Type rows2
  { f with rows := stageDays f.hasDaysCol p.sel_days rows3 }

/-- Dashboard chart 4 (`app.py:314-320`): `claims.merge(food[["Food_ID",
"Location"]], on="Food_ID", how="left")`.  Every claim survives the left
join; a claim whose `Food_ID` resolves to no listing keeps a null `Location`.
(`Food_ID` is unique in `Food_Listings` per the data model, so the lookup
takes the first match.) -/
def chart4ClaimRows (claimRows : List Claim) (foodRows : List Listing) :
    List (Claim × Option String) :=
  claimRows.map (fun c =>
    (c, (foodRows.find? (fun l => l.food_ID == c.food_ID)).map (fun l => l.location)))

/-! ### Filter Food Donations page (`app.py:530-563`) -/

/-- A row of `merged = food.merge(providers[["Provider_ID","Name","Contact"]],
on="Provider_ID", how="left")` (`app.py:536`): the listing plus the resolved
provider's name and contact, `none` when the `Provider_ID` is orphaned. -/
structure MergedRow where
  listing : Listing
  provider_Name : Option String
  provider_Contact : Option String
deriving DecidableEq

/-- The left merge of `app.py:536` (`Provider_ID` unique in `Providers`, so
one output row per listing, in input order). -/
def mergeFoodProviders (provs : List Provider) (rows : List Listing) : List MergedRow :=
  rows.map (fun l =>
    match provs.find? (fun p => p.provider_ID == l.provider_ID) with
    | some p => ⟨l, some p.name, some p.contact⟩
    | none => ⟨l, none, none⟩)

/-- The Filter Food Donations predicate set; `none` models the "All" choice of
each selectbox. -/
structure PagePred where
  sel_city : Option String
  sel_provider : Option String
  sel_foodtype : Option String
deriving DecidableEq

/-- City test of the page (`rs[rs["Location"] == sel_city]`, `app.py:548`):
exact, case-sensitive match on the listing's own `Location`. -/
def pageCityB (c : String) (r : MergedRow) : Bool := r.listing.location == c

/-- Provider test of the page (`rs[rs["Provider_Name"] == sel_provider]`,
`app.py:550`): a `NaN` provider name (orphaned listing) never equals the
selected string. -/
def pageProvB (pn : String) (r : MergedRow) : Bool := r.provider_Name == some pn

/-- Food-type test of the page (`rs[rs["Food_Type"] == sel_foodtype]`,
`app.py:552`). -/
def pageFtB (ft : String) (r : MergedRow) : Bool := r.listing.food_Type == ft

/-- One optional-filter stage of the page (`if sel_x != "All": rs = rs[...]`). -/
def filterOpt (o : Option String) (test : String → MergedRow → Bool)
    (rows : List MergedRow) : List MergedRow :=
  match o with
  | none => rows
  | some v => rows.filter (test v)

/-- The Filter Food Donations filter block (`app.py:546-552`): city, then
provider name, then food type. -/
def applyPage (P : PagePred) (rows : List MergedRow) : List MergedRow :=
  filterOpt P.sel_foodtype pageFtB
    (filterOpt P.sel_provider pageProvB
      (filterOpt P.sel_city pageCityB rows))

/-- Truth value of one optional predicate axis on one row (`none` = no
constraint). -/
def optB (o : Option String) (test : String → MergedRow → Bool) (r : MergedRow) : Bool :=
  match o with
  | none => true
  | some v => test v r

/-- The page's three predicate axes conjoined on one row (the conjunction is
written in the order produced by composing the three filter stages; `&&` is
commutative, so the order is immaterial to the truth value). -/
def pagePredB (P : PagePred) (r : MergedRow) : Bool :=
  optB P.sel_foodtype pageFtB r &&
    (optB P.sel_provider pageProvB r && optB P.sel_city pageCityB r)

/-- Union of two predicate sets, left-biased on each axis. -/
def unionPred (P1 P2 : PagePred) : PagePred :=
  ⟨P1.sel_city <|> P2.sel_city, P1.sel_provider <|> P2.sel_provider,
    P1.sel_foodtype <|> P2.sel_foodtype⟩

/-- Two predicate sets constrain disjoint fields: on each axis at most one of
them is active. -/
def disjointFields (P1 P2 : PagePred) : Prop :=
  (P1.sel_city = none ∨ P2.sel_city = none) ∧
    (P1.sel_provider = none ∨ P2.sel_provider = none) ∧
    (P1.sel_foodtype = none ∨ P2.sel_foodtype = none)

/-! ### Helper lemmas -/

lemma applyPage_eq_filter (P : PagePred) (rows : List MergedRow) :
    applyPage P rows = rows.filter (fun r => pagePredB P r) := by
  rcases P with ⟨c, pv, ft⟩
  cases c <;> cases pv <;> cases ft <;>
    simp [applyPage, filterOpt, pagePredB, optB, List.filter_filter]

lemma mem_applyPage (P : PagePred) (rows : List MergedRow) (r : MergedRow) :
    r ∈ applyPage P rows ↔ r ∈ rows ∧ pagePredB P r = true := by
  rw [applyPage_eq_filter]; exact List.mem_filter

lemma compute_days_to_expiry_of_present (today : Int) (f : FoodFrame)
    (hne : f.rows ≠ []) (hcol : f.hasExpiryCol = true) :
    compute_days_to_expiry today f =
      { f with hasDaysCol := true, rows := f.rows.map (deriveDays today) } := by
  unfold compute_days_to_expiry
  simp [hcol, List.isEmpty_eq_false.mpr hne]

/-! ### Claim theorems -/

/-- C3: for a parseable `Expiry_Date` and any `today`, the exposed
`Days_To_Expiry` is the non-negative magnitude `|expiry - today|` in whole
days, while the expired selection is decided by the signed delta
(`delta < 0`) before the absolute value is taken. -/
theorem c3_days_abs_expired_signed (today : Int) (f : FoodFrame) (l : Listing) (e : Int)
    (hcol : f.hasExpiryCol = true) (hl : l ∈ f.rows) (he : l.expiry_Date = some e) :
    deriveDays today l ∈ (compute_days_to_expiry today f).rows ∧
    (deriveDays today l).days_To_Expiry = some ((e - today).natAbs : Int) ∧
    ((e - today).natAbs : Int) = |e - today| ∧
    (deriveDays today l ∈ expiredSelection today (compute_days_to_expiry today f) ↔
      e - today < 0) := by
  have hne : f.rows ≠ [] := List.ne_nil_of_mem hl
  have hc := compute_days_to_expiry_of_present today f hne hcol
  have hmem : deriveDays today l ∈ (compute_days_to_expiry today f).rows := by
    rw [hc]; exact List.mem_map_of_mem _ hl
  refine ⟨hmem, by simp [deriveDays, he], (Int.abs_eq_natAbs _).symm, ?_⟩
  unfold expiredSelection
  rw [List.mem_filter]
  constructor
  · rintro ⟨-, hp⟩
    simp [deriveDays, he] at hp
    omega
  · intro hlt
    refine ⟨hmem, ?_⟩
    simp [deriveDays, he]
    omega

/-- Concrete input for C3: a listing whose expiry day 7 lies three days before
`today = 10`. -/
def c3L : Listing := ⟨1, "Bread", some 4, some 7, 1, "Pune", "Bakery", "Snacks", none⟩

/-- Food frame holding only `c3L`. -/
def c3f : FoodFrame := ⟨true, false, [c3L]⟩

/-- Witness for C3: `Expiry_Date = today - 3` gives `Days_To_Expiry = 3` and
the listing is selected as expired. -/
theorem c3_days_abs_expired_signed_witness :
    (deriveDays 10 c3L).days_To_Expiry = some 3 ∧
    deriveDays 10 c3L ∈ expiredSelection 10 (compute_days_to_expiry 10 c3f) := by
  have h := c3_days_abs_expired_signed 10 c3f c3L 7 rfl (by simp [c3f]) rfl
  exact ⟨h.2.1, h.2.2.2.mpr (by decide)⟩

/-- C9 (corrected): an unparseable `Quantity` normalizes to zero, and a parsed
value passes through unchanged — the source applies no non-negativity
coercion. -/
theorem c9_quantity_coercion :
    coerceQuantity none = 0 ∧ ∀ n : Int, coerceQuantity (some n) = n :=
  ⟨rfl, fun _ => rfl⟩

/-- Counterexample for C9 as stated: a raw `Quantity` of `-5` is used as `-5`,
which is not non-negative. -/
theorem c9_negative_quantity_counterexample :
    coerceQuantity (some (-5)) = -5 ∧ ¬(0 ≤ coerceQuantity (some (-5))) :=
  ⟨rfl, by decide⟩

/-- C10: on an empty frame or a frame without an `Expiry_Date` column,
`compute_days_to_expiry` is the identity, so no `Days_To_Expiry` column
appears. -/
theorem c10_compute_identity_when_missing (today : Int) (f : FoodFrame)
    (h : f.rows = [] ∨ f.hasExpiryCol = false) :
    compute_days_to_expiry today f = f ∧
    (compute_days_to_expiry today f).hasDaysCol = f.hasDaysCol := by
  have hg : (f.rows.isEmpty || !f.hasExpiryCol) = true := by
    rcases h with h | h <;> simp [h]
  constructor <;> simp [compute_days_to_expiry, hg]

/-- Empty raw food frame (no rows, no derived column). -/
def c10f : FoodFrame := ⟨false, false, []⟩

/-- Witness for C10: the empty frame is returned unchanged and still carries
no `Days_To_Expiry` column. -/
theorem c10_compute_identity_when_missing_witness :
    compute_days_to_expiry 5 c10f = c10f ∧
    (compute_days_to_expiry 5 c10f).hasDaysCol = false :=
  ⟨(c10_compute_identity_when_missing 5 c10f (Or.inl rfl)).1,
    (c10_compute_identity_when_missing 5 c10f (Or.inl rfl)).2.trans rfl⟩

/-- C4: with the expiry-range slider `[lo, hi]` active, a listing is kept iff
its `Days_To_Expiry` is non-null and lies in the closed interval; a listing
with an absent/unparseable `Expiry_Date` is excluded by the days filter, while
the Filter Food Donations predicates never read `Days_To_Expiry` at all. -/
theorem c4_expiry_range_closed_interval :
    (∀ (f : FoodFrame) (lo hi : Int) (l : Listing), f.hasDaysCol = true →
      (l ∈ (dashboardFilter ⟨none, [], [], (lo, hi)⟩ f).rows ↔
        l ∈ f.rows ∧ ∃ d, l.days_To_Expiry = some d ∧ lo ≤ d ∧ d ≤ hi)) ∧
    (∀ (today lo hi : Int) (f : FoodFrame) (l : Listing),
      f.hasExpiryCol = true → l ∈ f.rows → l.expiry_Date = none →
      deriveDays today l ∉
        (dashboardFilter ⟨none, [], [], (lo, hi)⟩ (compute_days_to_expiry today f)).rows) ∧
    (∀ (P : PagePred) (r : MergedRow) (d : Option Int),
      pagePredB P { r with listing := { r.listing with days_To_Expiry := d } } =
        pagePredB P r) := by
  refine ⟨?_, ?_, ?_⟩
  · intro f lo hi l h
    simp only [dashboardFilter, stageCity, stageIsin, stageDays, h, List.isEmpty_nil,
      if_true, List.mem_filter]
    refine and_congr_right fun _ => ?_
    cases hd : l.days_To_Expiry <;> simp [daysInRangeB, hd]
  · intro today lo hi f l hcol hl hnone
    have hne : f.rows ≠ [] := List.ne_nil_of_mem hl
    rw [compute_days_to_expiry_of_present today f hne hcol]
    simp [dashboardFilter, stageCity, stageIsin, stageDays, List.mem_filter,
      daysInRangeB, deriveDays, hnone]
  · intro P r d
    rcases P with ⟨c, pv, ft⟩
    cases c <;> cases pv <;> cases ft <;>
      simp [pagePredB, optB, pageCityB, pageProvB, pageFtB]

/-- Concrete listing for C4 with `Days_To_Expiry = 3`. -/
def c4L5 : Listing := ⟨2, "Rice", some 3, some 13, 1, "Pune", "Staple", "Lunch", some 3⟩

/-- Frame for C4 whose `Days_To_Expiry` column is present. -/
def c4fd : FoodFrame := ⟨true, true, [c4L5]⟩

/-- Listing for C4 with an unparseable `Expiry_Date`. -/
def c4LU : Listing := ⟨3, "Milk", some 1, none, 1, "Pune", "Dairy", "Breakfast", none⟩

/-- Raw frame for C4 holding only `c4LU`. -/
def c4fu : FoodFrame := ⟨true, false, [c4LU]⟩

/-- Witness for C4: a listing with `Days_To_Expiry = 3` passes the `[0, 7]`
slider, and one with unparseable `Expiry_Date` is dropped by it. -/
theorem c4_expiry_range_closed_interval_witness :
    c4L5 ∈ (dashboardFilter ⟨none, [], [], (0, 7)⟩ c4fd).rows ∧
    deriveDays 9 c4LU ∉
      (dashboardFilter ⟨none, [], [], (0, 7)⟩ (compute_days_to_expiry 9 c4fu)).rows :=
  ⟨(c4_expiry_range_closed_interval.1 c4fd 0 7 c4L5 rfl).mpr
      ⟨by simp [c4fd], 3, rfl, by decide, by decide⟩,
    c4_expiry_range_closed_interval.2.1 9 0 7 c4fu c4LU rfl (by simp [c4fu]) rfl⟩

/-- C2 (corrected): under an active city predicate a listing is kept iff its
own `Location` matches the target — case-insensitively on the Dashboard,
exactly on the Filter Food Donations page; the resolved provider's `City` is
never consulted. -/
theorem c2_city_filter_location_only :
    (∀ (c : String) (d : Int × Int) (f : FoodFrame) (l : Listing),
      lowerStr c ≠ "" → f.hasDaysCol = false →
      (l ∈ (dashboardFilter ⟨some c, [], [], d⟩ f).rows ↔
        l ∈ f.rows ∧ lowerStr l.location = lowerStr c)) ∧
    (∀ (c : String) (rows : List MergedRow) (r : MergedRow),
      r ∈ applyPage ⟨some c, none, none⟩ rows ↔ r ∈ rows ∧ r.listing.location = c) := by
  constructor
  · intro c d f l hc hdays
    simp only [dashboardFilter, stageCity, stageIsin, stageDays, hdays, List.isEmpty_nil,
      if_true, Bool.false_eq_true, if_false, List.mem_filter]
    refine and_congr_right fun _ => ?_
    have h0 : lowerStr "" = "" := rfl
    simp only [dashCityB, Bool.or_eq_true, beq_iff_eq, h0]
    exact or_iff_left fun h => hc h.symm
  · intro c rows r
    rw [mem_applyPage]
    exact and_congr_right fun _ => by
      simp [pagePredB, optB, pageCityB, beq_iff_eq]

/-- Provider for C2's counterexample, registered in Springfield. -/
def c2prov : Provider := ⟨7, "Acme", "Restaurant", "Springfield", "acme@x.com"⟩

/-- Listing for C2's counterexample: `Location = "Unknown"` but owned by the
Springfield provider. -/
def c2L : Listing := ⟨3, "Soup", some 2, some 20, 7, "Unknown", "Prepared", "Dinner", some 2⟩

/-- Frame holding only `c2L`, with the derived column present. -/
def c2fd : FoodFrame := ⟨true, true, [c2L]⟩

/-- Counterexample for C2 as stated: with city filter `"Springfield"`, the
listing whose provider is registered in Springfield but whose own `Location`
is `"Unknown"` is excluded by both filter blocks. -/
theorem c2_springfield_counterexample :
    (dashboardFilter ⟨some "Springfield", [], [], (0, 30)⟩ c2fd).rows = [] ∧
    applyPage ⟨some "Springfield", none, none⟩ (mergeFoodProviders [c2prov] [c2L]) = [] :=
  ⟨rfl, rfl⟩

/-- Listing for C2's witness, located in `"PUNE"`. -/
def c2Lp : Listing := ⟨4, "Dal", some 1, some 2, 7, "PUNE", "Staple", "Lunch", none⟩

/-- Raw frame holding only `c2Lp`. -/
def c2fp : FoodFrame := ⟨true, false, [c2Lp]⟩

/-- Merged row for C2's witness, located in Delhi. -/
def c2mr : MergedRow :=
  ⟨⟨5, "Idli", some 2, none, 9, "Delhi", "Breakfast", "Breakfast", none⟩, none, none⟩

/-- Witness for C2's amended theorem: the Dashboard city match is
case-insensitive on `Location` and the page city match is exact on
`Location`. -/
theorem c2_city_filter_location_only_witness :
    c2Lp ∈ (dashboardFilter ⟨some "Pune", [], [], (0, 7)⟩ c2fp).rows ∧
    c2mr ∈ applyPage ⟨some "Delhi", none, none⟩ [c2mr] :=
  ⟨(c2_city_filter_location_only.1 "Pune" (0, 7) c2fp c2Lp (by decide) rfl).mpr
      ⟨by simp [c2fp], by decide⟩,
    (c2_city_filter_location_only.2 "Delhi" [c2mr] c2mr).mpr ⟨by simp, rfl⟩⟩

/-- C6: the empty predicate set is the identity: the page filter block returns
its input list unchanged, the Dashboard filter block returns the frame
unchanged (no derived column, so the always-on slider is skipped), and the
claims join keeps every claim in input order. -/
theorem c6_empty_predicate_identity :
    (∀ rows : List MergedRow, applyPage ⟨none, none, none⟩ rows = rows) ∧
    (∀ (d : Int × Int) (f : FoodFrame), f.hasDaysCol = false →
      dashboardFilter ⟨none, [], [], d⟩ f = f) ∧
    (∀ (cs : List Claim) (fs : List Listing),
      (chart4ClaimRows cs fs).map Prod.fst = cs) := by
  refine ⟨fun rows => rfl, ?_, ?_⟩
  · intro d f h
    obtain ⟨he, hd, rows⟩ := f
    replace h : hd = false := h
    subst h
    rfl
  · intro cs fs
    induction cs with
    | nil => rfl
    | cons c t ih => simpa [chart4ClaimRows] using ih

/-- Merged row for C6's witness. -/
def c6mr : MergedRow :=
  ⟨⟨6, "Tea", some 1, none, 2, "Goa", "Drink", "Snacks", none⟩, some "Chai Co", none⟩

/-- Raw frame for C6's witness. -/
def c6f : FoodFrame :=
  ⟨true, false, [⟨7, "Juice", some 2, some 4, 3, "Goa", "Drink", "Snacks", none⟩]⟩

/-- Witness for C6 at concrete inputs. -/
theorem c6_empty_predicate_identity_witness :
    applyPage ⟨none, none, none⟩ [c6mr] = [c6mr] ∧
    dashboardFilter ⟨none, [], [], (0, 7)⟩ c6f = c6f :=
  ⟨c6_empty_predicate_identity.1 [c6mr], c6_empty_predicate_identity.2.1 (0, 7) c6f rfl⟩

lemma optB_orElse (a b : Option String) (t : String → MergedRow → Bool) (r : MergedRow)
    (h : a = none ∨ b = none) :
    optB (a <|> b) t r = (optB a t r && optB b t r) := by
  rcases h with h | h <;> subst h
  · cases b <;> simp [optB]
  · cases a <;> simp [optB]

lemma bool_rearrange (c1 p1 f1 c2 p2 f2 : Bool) :
    ((f2 && (p2 && c2)) && (f1 && (p1 && c1))) =
      ((f1 && f2) && ((p1 && p2) && (c1 && c2))) := by
  cases c1 <;> cases p1 <;> cases f1 <;> cases c2 <;> cases p2 <;> cases f2 <;> rfl

/-- C7: applying two predicate sets that constrain disjoint fields in
sequence equals applying their union at once; in particular the city and
food-type predicates may be applied in either order. -/
theorem c7_cascade_composability :
    (∀ P1 P2 : PagePred, disjointFields P1 P2 →
      ∀ rows : List MergedRow,
        applyPage P2 (applyPage P1 rows) = applyPage (unionPred P1 P2) rows) ∧
    (∀ (rows : List MergedRow) (c ft : String),
      applyPage ⟨none, none, some ft⟩ (applyPage ⟨some c, none, none⟩ rows) =
        applyPage ⟨some c, none, none⟩ (applyPage ⟨none, none, some ft⟩ rows)) := by
  have main : ∀ P1 P2 : PagePred, disjointFields P1 P2 →
      ∀ rows : List MergedRow,
        applyPage P2 (applyPage P1 rows) = applyPage (unionPred P1 P2) rows := by
    intro P1 P2 hd rows
    obtain ⟨h1, h2, h3⟩ := hd
    rw [applyPage_eq_filter, applyPage_eq_filter, applyPage_eq_filter, List.filter_filter]
    refine List.filter_congr fun r _ => ?_
    show (pagePredB P2 r && pagePredB P1 r) = pagePredB (unionPred P1 P2) r
    simp only [pagePredB, unionPred]
    rw [optB_orElse _ _ _ _ h3, optB_orElse _ _ _ _ h2, optB_orElse _ _ _ _ h1]
    exact bool_rearrange _ _ _ _ _ _
  refine ⟨main, fun rows c ft => ?_⟩
  rw [main ⟨some c, none, none⟩ ⟨none, none, some ft⟩ ⟨Or.inr rfl, Or.inl rfl, Or.inl rfl⟩,
    main ⟨none, none, some ft⟩ ⟨some c, none, none⟩ ⟨Or.inl rfl, Or.inl rfl, Or.inr rfl⟩]
  rfl

/-- Merged rows for C7's witness: two listings in different cities with
different food types. -/
def c7r1 : MergedRow :=
  ⟨⟨11, "Dosa", some 4, some 6, 6, "Chennai", "South", "Breakfast", none⟩, some "Anna", none⟩

/-- Second merged row for C7's witness. -/
def c7r2 : MergedRow :=
  ⟨⟨12, "Vada", some 2, some 7, 6, "Madurai", "South", "Snacks", none⟩, some "Anna", none⟩

/-- Witness for C7 at a concrete disjoint pair: filtering by city then by
food type equals filtering by the union predicate set. -/
theorem c7_cascade_composability_witness :
    disjointFields ⟨some "Chennai", none, none⟩ ⟨none, none, some "South"⟩ ∧
    applyPage ⟨none, none, some "South"⟩
        (applyPage ⟨some "Chennai", none, none⟩ [c7r1, c7r2]) =
      applyPage (unionPred ⟨some "Chennai", none, none⟩ ⟨none, none, some "South"⟩)
        [c7r1, c7r2] :=
  ⟨⟨Or.inr rfl, Or.inl rfl, Or.inl rfl⟩,
    c7_cascade_composability.1 ⟨some "Chennai", none, none⟩ ⟨none, none, some "South"⟩
      ⟨Or.inr rfl, Or.inl rfl, Or.inl rfl⟩ [c7r1, c7r2]⟩

lemma stageCity_sublist (o : Option String) (rows : List Listing) :
    (stageCity o rows).Sublist rows := by
  cases o with
  | none => exact List.Sublist.refl _
  | some c => exact List.filter_sublist _

lemma stageIsin_sublist (sel : List String) (proj : Listing → String) (rows : List Listing) :
    (stageIsin sel proj rows).Sublist rows := by
  unfold stageIsin
  split
  · exact List.Sublist.refl _
  · exact List.filter_sublist _

lemma stageDays_sublist (b : Bool) (lohi : Int × Int) (rows : List Listing) :
    (stageDays b lohi rows).Sublist rows := by
  unfold stageDays
  split
  · exact List.filter_sublist _
  · exact List.Sublist.refl _

/-- C8: the Normalizer and both filter blocks are pure functions of their
inputs with `today` an explicit parameter: the Normalizer is idempotent, it
never alters the raw listing fields (it only writes the derived
`Days_To_Expiry` column), and both filter blocks return order-preserving
sublists of their input. -/
theorem c8_pure_functions_order_preserving :
    (∀ (today : Int) (f : FoodFrame),
      compute_days_to_expiry today (compute_days_to_expiry today f) =
        compute_days_to_expiry today f) ∧
    (∀ (today : Int) (f : FoodFrame),
      (compute_days_to_expiry today f).rows.map (fun l => { l with days_To_Expiry := none }) =
        f.rows.map (fun l => { l with days_To_Expiry := none })) ∧
    (∀ (p : DashPred) (f : FoodFrame), ((dashboardFilter p f).rows).Sublist f.rows) ∧
    (∀ (P : PagePred) (rows : List MergedRow), (applyPage P rows).Sublist rows) := by
  have hdd : ∀ (today : Int) (l : Listing),
      deriveDays today (deriveDays today l) = deriveDays today l := by
    intro today l; simp [deriveDays]
  refine ⟨?_, ?_, ?_, ?_⟩
  · intro today f
    obtain ⟨hE, hD, rows⟩ := f
    cases rows with
    | nil => rfl
    | cons a t =>
      cases hE
      · rfl
      · show compute_days_to_expiry today
            ⟨true, true, (a :: t).map (deriveDays today)⟩ = _
        simp [compute_days_to_expiry, List.map_map, Function.comp_def, hdd]
  · intro today f
    obtain ⟨hE, hD, rows⟩ := f
    cases rows with
    | nil => rfl
    | cons a t =>
      cases hE
      · rfl
      · show ((a :: t).map (deriveDays today)).map _ = _
        simp only [List.map_map]
        refine List.map_congr_left fun l _ => ?_
        simp [deriveDays]
  · intro p f
    exact ((stageDays_sublist _ _ _).trans
      ((stageIsin_sublist _ _ _).trans
        ((stageIsin_sublist _ _ _).trans (stageCity_sublist _ _))))
  · intro P rows
    rw [applyPage_eq_filter]
    exact List.filter_sublist _

/-- Listing for C1's failing input: the only listing, food type `"X"`. -/
def c1L : Listing := ⟨1, "Rice", some 5, some 10, 1, "A", "X", "Lunch", none⟩

/-- Raw food frame for C1. -/
def c1raw : FoodFrame := ⟨true, false, [c1L]⟩

/-- The food frame after the Normalizer, as the Dashboard holds it
(`app.py:210`), with `today = 8`. -/
def c1food : FoodFrame := compute_days_to_expiry 8 c1raw

/-- A claim referencing the (filtered-out) listing `Food_ID = 1`. -/
def c1claimA : Claim := ⟨1, 1, 1, "Pending", "t1"⟩

/-- A dangling claim referencing the nonexistent `Food_ID = 999`. -/
def c1claimB : Claim := ⟨2, 999, 2, "Completed", "t2"⟩

/-- C1 evaluated at the failing input: the food-type predicate `["Y"]`
empties the listing set, yet the claims join still returns both claims — the
one whose listing was excluded and even the dangling one (with a null
`Location`) — instead of the empty set the claim requires. -/
theorem c1_claims_join_ignores_filters :
    (dashboardFilter ⟨none, ["Y"], [], (0, 30)⟩ c1food).rows = [] ∧
    chart4ClaimRows [c1claimA, c1claimB] c1food.rows =
      [(c1claimA, some "A"), (c1claimB, none)] :=
  ⟨rfl, rfl⟩

/-- C5 (amended): a city / provider-name / food-type predicate value matching
zero rows yields an empty listing set — never an error (the filters are total
functions) and never a fallback to the unfiltered input. -/
theorem c5_zero_match_empty_listings :
    (∀ (rows : List MergedRow) (c : String), (∀ r ∈ rows, r.listing.location ≠ c) →
      applyPage ⟨some c, none, none⟩ rows = []) ∧
    (∀ (rows : List MergedRow) (pn : String), (∀ r ∈ rows, r.provider_Name ≠ some pn) →
      applyPage ⟨none, some pn, none⟩ rows = []) ∧
    (∀ (rows : List MergedRow) (ft : String), (∀ r ∈ rows, r.listing.food_Type ≠ ft) →
      applyPage ⟨none, none, some ft⟩ rows = []) ∧
    (∀ (c : String) (d : Int × Int) (f : FoodFrame), lowerStr c ≠ "" →
      (∀ l ∈ f.rows, lowerStr l.location ≠ lowerStr c) →
      (dashboardFilter ⟨some c, [], [], d⟩ f).rows = []) := by
  refine ⟨?_, ?_, ?_, ?_⟩
  · intro rows c h
    show List.filter (pageCityB c) rows = []
    exact List.filter_eq_nil_iff.mpr fun r hr => by
      simp [pageCityB, beq_iff_eq]; exact h r hr
  · intro rows pn h
    show List.filter (pageProvB pn) rows = []
    exact List.filter_eq_nil_iff.mpr fun r hr => by
      simp [pageProvB]; exact fun he => (h r hr) (by simp [he])
  · intro rows ft h
    show List.filter (pageFtB ft) rows = []
    exact List.filter_eq_nil_iff.mpr fun r hr => by
      simp [pageFtB, beq_iff_eq]; exact h r hr
  · intro c d f hc h
    have h1 : stageCity (some c) f.rows = [] := by
      refine List.filter_eq_nil_iff.mpr fun l hl => ?_
      have h0 : lowerStr "" = "" := rfl
      simp [dashCityB, beq_iff_eq, h0]
      exact ⟨h l hl, fun he => hc he.symm⟩
    simp [dashboardFilter, h1, stageIsin, stageDays]

/-- Merged row for C5's witness. -/
def c5mr : MergedRow :=
  ⟨⟨8, "Poha", some 2, some 3, 4, "Nashik", "Breakfast", "Breakfast", none⟩, some "Ruchi", none⟩

/-- Food frame for C5's witness. -/
def c5f : FoodFrame :=
  ⟨true, true, [⟨9, "Thepla", some 2, some 3, 4, "Surat", "Snack", "Snacks", some 1⟩]⟩

/-- Witness for C5's amended theorem: a provider name and a city with zero
matches each yield the empty listing set. -/
theorem c5_zero_match_empty_listings_witness :
    applyPage ⟨none, some "Ghost Kitchen", none⟩ [c5mr] = [] ∧
    (dashboardFilter ⟨some "Atlantis", [], [], (0, 9)⟩ c5f).rows = [] :=
  ⟨c5_zero_match_empty_listings.2.1 [c5mr] "Ghost Kitchen" (by decide),
    c5_zero_match_empty_listings.2.2.2 "Atlantis" (0, 9) c5f (by decide) (by decide)⟩

/-- Listing for C5's counterexample. -/
def c5L : Listing := ⟨10, "Pav", some 6, some 12, 5, "Mumbai", "Bread", "Snacks", none⟩

/-- Raw frame for C5's counterexample. -/
def c5raw : FoodFrame := ⟨true, false, [c5L]⟩

/-- Normalized frame for C5's counterexample (`today = 10`). -/
def c5food : FoodFrame := compute_days_to_expiry 10 c5raw

/-- Claim referencing `c5L`. -/
def c5claim : Claim := ⟨3, 10, 7, "Pending", "t3"⟩

/-- Counterexample for C5 as stated: the zero-match city `"Atlantis"` empties
the listing set, but the claim set produced by the claims join is not empty —
the code never narrows claims by the filtered listings. -/
theorem c5_zero_match_claims_counterexample :
    (dashboardFilter ⟨some "Atlantis", [], [], (0, 30)⟩ c5food).rows = [] ∧
    chart4ClaimRows [c5claim] c5food.rows ≠ [] :=
  ⟨rfl, by decide⟩

end FoodWastage
